import Mathlib

/-!
Verification of the supervisor/router logic of the multi-agent
customer-support platform (`src/agent.py`): identity and session
resolution, memory assembly, trace reconstruction and response-envelope
assembly.  The definitions below are a shallow embedding of
`SupervisorAgent.process_request` and the `send_message` entrypoint;
external collaborators (the Memory Store and the language-model decision
step) are passed in as explicit function parameters.
-/

namespace Support

/-! ## String helpers

Python-compatible primitives, written over `List Char` so that every
definition reduces in the kernel.  `String` in this Lean version is a
structure wrapping `List Char`, so these agree with the usual operations.
-/

/-- ASCII lower-casing of a string (Python `str.lower` on ASCII data). -/
def lowerStr (s : String) : String := ⟨s.data.map Char.toLower⟩

/-- ASCII upper-casing of a string (Python `str.upper` on ASCII data). -/
def upperStr (s : String) : String := ⟨s.data.map Char.toUpper⟩

/-- Does `pat` occur at the head of `l`? -/
def headMatch : List Char → List Char → Bool
  | [], _ => true
  | _ :: _, [] => false
  | a :: as, b :: bs => a == b && headMatch as bs

/-- Does `pat` occur somewhere in `l`? -/
def infixMatch (pat : List Char) : List Char → Bool
  | [] => headMatch pat []
  | c :: cs => headMatch pat (c :: cs) || infixMatch pat cs

/-- Python `needle in hay` on strings. -/
def containsStr (hay needle : String) : Bool := infixMatch needle.data hay.data

/-- Python truthiness of an optional string: `None` and `""` are falsy. -/
def strTruthy : Option String → Bool
  | none => false
  | some s => s ≠ ""

/-- Python `a or b` on two optional strings (first truthy value wins,
otherwise the second operand as given). -/
def pyOrOS (a b : Option String) : Option String :=
  if strTruthy a then a else b

/-- Python `str(x)` on an optional string: `None` prints as `"None"`. -/
def pyStr : Option String → String
  | none => "None"
  | some s => s

/-- Python `", ".join(l)` and friends. -/
def joinSep (sep : String) : List String → String
  | [] => ""
  | [s] => s
  | s :: rest => s ++ sep ++ joinSep sep rest

/-- One step of Python `str.title`: upper-case a letter that starts an
alphabetic run, lower-case the rest (ASCII approximation). -/
def titleAux : Bool → List Char → List Char
  | _, [] => []
  | prevAlpha, c :: cs =>
    (if c.isAlpha then (if prevAlpha then c.toLower else c.toUpper) else c)
      :: titleAux c.isAlpha cs

/-- Python `str.title` (ASCII approximation). -/
def pyTitle (s : String) : String := ⟨titleAux false s.data⟩

/-- Decimal digits of a natural number, fuel-driven so it reduces in the
kernel. -/
def natStrAux : Nat → Nat → List Char
  | 0, _ => []
  | _ + 1, 0 => []
  | fuel + 1, n => natStrAux fuel (n / 10) ++ [Char.ofNat (48 + n % 10)]

/-- Python `str(n)` for a natural number. -/
def natStr (n : Nat) : String :=
  if n = 0 then "0" else ⟨natStrAux (n + 1) n⟩

/-- Python negative-start slice `l[-k:]`: the last `k` elements (all of
`l` when it is shorter than `k`). -/
def pySliceLast (l : List α) (k : Nat) : List α := l.drop (l.length - k)

/-! ## Configuration constants (module-level in `src/agent.py`)

The environment-variable overrides (`os.getenv`) are modelled by their
defaults, which are the values the repository deploys with.
-/

def BEDROCK_MODEL_ID : String := "anthropic.claude-3-haiku-20240307-v1:0"

def MEMORY_ID : String := "customer_support_supervisor_mem-SalHj92SVh"

/-- The static address-to-display-name table (`agent_url_to_name`,
`src/agent.py` lines 360-366). -/
def agent_url_to_name : List (String × String) :=
  [("http://127.0.0.1:9001", "SentimentAgent"),
   ("http://127.0.0.1:9002", "KnowledgeAgent"),
   ("http://127.0.0.1:9003", "TicketAgent"),
   ("http://127.0.0.1:9005", "ResolutionAgent"),
   ("http://127.0.0.1:9006", "EscalationAgent")]

/-- Python `agent_url_to_name.get(url)`. -/
def lookupAgentUrl (url : String) : Option String :=
  (agent_url_to_name.find? (fun p => p.1 == url)).map (·.2)

/-- The keyword table of the lexical fallback scan
(`agent_keywords`, `src/agent.py` lines 455-461), in insertion order. -/
def agent_keywords : List (String × String) :=
  [("knowledgeagent", "KnowledgeAgent"),
   ("sentimentagent", "SentimentAgent"),
   ("ticketagent", "TicketAgent"),
   ("resolutionagent", "ResolutionAgent"),
   ("escalationagent", "EscalationAgent")]

/-! ## Data model -/

/-- One caller-supplied conversation-history message, a mapping read with
`msg.get('role', 'unknown')` and `msg.get('content', '')`:
`none` models an absent key. -/
structure HistMsg where
  role : Option String := none
  content : Option String := none
deriving DecidableEq

/-- One message of a Memory-Store turn, read with
`message.get('role', 'unknown')` and `message.get('content', {}).get('text', '')`:
`contentText` is the `text` field of the nested `content` mapping
(`none` models an absent key or an empty nested mapping). -/
structure TurnMsg where
  role : Option String := none
  contentText : Option String := none
deriving DecidableEq

/-- One semantic-retrieval record, read with
`memory.get('content', {}).get('text', '')`. -/
structure MemRecord where
  contentText : Option String := none
deriving DecidableEq

/-- The Memory Store (external collaborator, `bedrock_agentcore.memory.MemoryClient`).
Each operation either returns a value or raises (`Except.error` with the
exception text).  `get_last_k_turns` takes memory id, actor id, session id
and the turn count `k`; `retrieve_memories` takes memory id, namespace,
free-text query and `top_k`. -/
structure MemoryStore where
  get_last_k_turns : String → String → String → Nat → Except String (List (List TurnMsg))
  retrieve_memories : String → String → String → Nat → Except String (List MemRecord)

/-- The enhanced context mapping handed to `SupervisorAgent.process_request`.
The `send_message` entrypoint always constructs it with every key below
present (the merge at `src/agent.py` lines 655-662), so an `Option` field
holds the key's value, with `none` for Python `None`. -/
structure Ctx where
  user_id : Option String := none
  username : Option String := none
  customer_tier : Option String := none
  department : Option String := none
  permissions : List String := []
  authenticated : Bool := false
  memory_enabled : Bool := false
  runtime_session_id : Option String := none
  session_id : Option String := none
  conversation_history : List HistMsg := []
  conversation_context : List HistMsg := []
deriving DecidableEq

/-! ## Memory assembly (`process_request`, `src/agent.py` lines 220-293)

Exactly one text block is produced, by one of: the in-session history
projection, the two-stage long-term retrieval, or an explicit no-history
notice.
-/

/-- Render one list of semantic-retrieval records: each record's text
content on its own line, records with falsy text skipped
(`src/agent.py` lines 256-259). -/
def renderMemories : List MemRecord → String
  | [] => ""
  | m :: rest =>
      (if strTruthy m.contentText then m.contentText.getD "" ++ "\n" else "")
        ++ renderMemories rest

/-- Render Memory-Store turns as role-tagged lines, skipping messages with
falsy text content (`src/agent.py` lines 268-273). -/
def renderTurns : List (List TurnMsg) → String
  | [] => ""
  | turn :: rest => renderTurnMsgs turn ++ renderTurns rest
where
  renderTurnMsgs : List TurnMsg → String
    | [] => ""
    | m :: ms =>
        (if strTruthy m.contentText then
          upperStr (m.role.getD "unknown") ++ ": " ++ m.contentText.getD "" ++ "\n"
         else "") ++ renderTurnMsgs ms

/-- The `history_text` produced by the semantic-retrieval fallback
(`src/agent.py` lines 245-263): when `retrieve_memories` raises or finds
nothing, `history_text` keeps its prior value (`prior`), else the
LONG-TERM MEMORY (USER PREFERENCES/FACTS) block is rendered. -/
def semanticHistoryText (store : MemoryStore) (question uid prior : String) : String :=
  match store.retrieve_memories MEMORY_ID ("support/user/" ++ uid ++ "/preferences") question 3 with
  | .error _ => prior
  | .ok memories =>
      if memories.isEmpty then prior
      else
        "\n=== LONG-TERM MEMORY (USER PREFERENCES/FACTS) ===\n"
          ++ renderMemories memories
          ++ "=== END OF LONG-TERM MEMORY ===\n"
          ++ "\nCRITICAL: The above information is from PREVIOUS SESSIONS (Long-Term Memory). Use this to answer questions about the user's preferences or past information.\n"

/-- The LONG-TERM MEMORY (FROM PREVIOUS SESSIONS) block
(`src/agent.py` lines 266-275). -/
def ltmTurnsBlock (recent_turns : List (List TurnMsg)) : String :=
  "\n=== LONG-TERM MEMORY (FROM PREVIOUS SESSIONS) ===\n"
    ++ renderTurns recent_turns
    ++ "=== END OF LONG-TERM MEMORY ===\n"
    ++ "\nCRITICAL: The above conversation is from PREVIOUS SESSIONS (Long-Term Memory). If the user asks about their name, preferences, or past information, use this LTM data.\n"

/-- The no-LTM-found notice (`src/agent.py` lines 278-279). -/
def noLtmFoundNotice (uid : String) : String :=
  "\n=== NO CONVERSATION HISTORY IN THIS SESSION ===\n"
    ++ "⚠️ This is a NEW session for user_id '" ++ uid
    ++ "', but no Long-Term Memory (LTM) found from previous sessions.\n"

/-- The degraded notice emitted when the Memory Store raises
(`src/agent.py` lines 282-283). -/
def memoryErrorNotice (uid : String) : String :=
  "\n=== NO CONVERSATION HISTORY IN THIS SESSION ===\n"
    ++ "⚠️ This is a NEW session for user_id '" ++ uid ++ "'.\n"

/-- The long-term-memory retrieval of `process_request`
(`src/agent.py` lines 226-283): get the last 5 turns keyed by
(identity, session-or-identity); when none are found run the semantic
fallback; any raised Memory-Store error degrades to `memoryErrorNotice`.

The source assigns the semantic block to `history_text` (line 255) and
then the `if recent_turns: … else: …` at lines 265-279 overwrites
`history_text` unconditionally, so the semantic block (`_semantic` below)
is discarded — the `let _semantic` mirrors that dead store. -/
def ltmHistoryText (store : MemoryStore) (question uid : String) (sess : Option String) : String :=
  match store.get_last_k_turns MEMORY_ID uid (if strTruthy sess then sess.getD "" else uid) 5 with
  | .error _ => memoryErrorNotice uid
  | .ok recent_turns =>
      let _semantic :=
        if recent_turns.isEmpty then semanticHistoryText store question uid "" else ""
      if recent_turns.isEmpty then noLtmFoundNotice uid
      else ltmTurnsBlock recent_turns

/-- Render the last-6 window of the caller-supplied in-session history as
role-tagged lines, in order (`src/agent.py` lines 286-289); every entry of
the window is rendered, with no guard on the content. -/
def renderHistMsgs : List HistMsg → String
  | [] => ""
  | m :: rest =>
      upperStr (m.role.getD "unknown") ++ ": " ++ m.content.getD "" ++ "\n"
        ++ renderHistMsgs rest

/-- The PREVIOUS CONVERSATION block (`src/agent.py` lines 285-291): the
Python slice `conversation_history[-6:]` projected oldest-first. -/
def stmBlock (conversation_history : List HistMsg) : String :=
  "\n=== PREVIOUS CONVERSATION (YOU MUST USE THIS FOR MEMORY QUESTIONS) ===\n"
    ++ renderHistMsgs (pySliceLast conversation_history 6)
    ++ "=== END OF PREVIOUS CONVERSATION ===\n"
    ++ "\nCRITICAL: If the user asks about information from the conversation above (like their name, preferences, or what they told you), you MUST reference it from the Previous Conversation section.\n"

/-- The first-message notice (`src/agent.py` line 293). -/
def firstMessageNotice : String :=
  "\n=== NO PREVIOUS CONVERSATION ===\nThis is the first message in the session.\n"

/-- The `history_text` selection of `process_request`
(`src/agent.py` lines 220-293): three mutually exclusive strategies. -/
def historyText (store : MemoryStore) (question : String) (c : Ctx) : String :=
  let uid := c.user_id.getD "anonymous"
  if c.conversation_history.isEmpty && uid != "" && uid != "anonymous" then
    ltmHistoryText store question uid (pyOrOS c.runtime_session_id c.session_id)
  else if !c.conversation_history.isEmpty then
    stmBlock c.conversation_history
  else
    firstMessageNotice

/-- The LTM reminder appended when the identity is known
(`src/agent.py` lines 296-298). -/
def ltmNote (uid : String) : String :=
  if uid != "" && uid != "anonymous" then
    "\n⚠️ CRITICAL FOR LTM: User ID is '" ++ uid
      ++ "'. Long-Term Memory (LTM) has been retrieved from previous sessions (if available) and is shown above. Use this information to answer questions about the user's name, preferences, or past interactions.\n"
  else ""

/-- The full prompt handed to the decision step (`user_info`,
`src/agent.py` lines 300-313).  With no context only the bare request is
sent. -/
def userInfoText (store : MemoryStore) (question : String) : Option Ctx → String
  | none => "Customer Request: " ++ question
  | some c =>
      let uid := c.user_id.getD "anonymous"
      "\nUser Context:\n- Username: " ++ pyStr c.username
        ++ "\n- Department: " ++ pyTitle (c.department.getD "general")
        ++ "\n- Permissions: "
        ++ (if c.permissions.isEmpty then "Basic" else joinSep ", " c.permissions)
        ++ "\n- Authenticated: " ++ (if c.authenticated then "True" else "False")
        ++ "\n- User ID: " ++ uid ++ " (for LTM)\n"
        ++ ltmNote uid ++ "\n"
        ++ historyText store question c ++ "\n"
        ++ "Session ID: " ++ pyStr c.session_id
        ++ "\nCustomer Request: " ++ question ++ "\n"

/-! ## Decision-step result model and trace reconstruction
(`process_request`, `src/agent.py` lines 315-470) -/

/-- The argument object of one discovered call record.  The source reads
`tool_args.get('target_agent_url') or tool_args.get('url', '')`
(`src/agent.py` line 390); string-encoded argument objects are decoded
with `json.loads` first and are modelled here already decoded. -/
structure ToolArgs where
  target_agent_url : Option String := none
  url : Option String := none
deriving DecidableEq

/-- One discovered call record with its name and arguments.  The source
accepts both mapping-shaped and attribute-shaped records and reads the
same two fields from either (`src/agent.py` lines 373-378), so one shape
suffices. -/
structure ToolCall where
  name : String := ""
  arguments : ToolArgs := {}
deriving DecidableEq

/-- One item of a list-shaped `response.message`: either a mapping (with
optional `text`, `content` and `tool_calls` keys, and its `str(...)` form)
or any other value rendered by `str(...)`. -/
inductive MsgItem where
  | idict (text content : Option String) (tool_calls : Option (List ToolCall))
      (reprS : String)
  | iraw (reprS : String)
deriving DecidableEq

/-- The `message` attribute of the decision-step result: a mapping (with
an optional `content` key and an optional `tool_calls` key whose value may
itself be `None`), a list of items, or any other value rendered by
`str(...)`. -/
inductive Message where
  | mdict (content : Option String) (tool_calls : Option (Option (List ToolCall)))
  | mlist (items : List MsgItem)
  | mraw (reprS : String)
deriving DecidableEq

/-- The opaque decision-step result object.  `tool_calls = none` models a
missing attribute and `some none` an attribute holding `None`; likewise
`message`/`content` model attribute presence with `Option`.  `reprS` is
the object's `str(...)` form, the last-resort message payload. -/
structure ModelResponse where
  tool_calls : Option (Option (List ToolCall)) := none
  message : Option Message := none
  content : Option String := none
  reprS : String := ""
deriving DecidableEq

/-- What one `invoke_async` run yields: the result object plus the state
of the agent's model-interaction log (`self.agent.conversation`), each log
entry carrying its call records when it has any. -/
structure InvokeOut where
  resp : ModelResponse := {}
  conversation : List (Option (List ToolCall)) := []
deriving DecidableEq

/-- Call records found on the result object itself
(`src/agent.py` lines 328-342): the `tool_calls` attribute first, else a
mapping-shaped `message` with a `tool_calls` key, else every `tool_calls`
key of a list-shaped `message`. -/
def respToolCalls (r : ModelResponse) : List ToolCall :=
  match r.tool_calls with
  | some tc => tc.getD []
  | none =>
      match r.message with
      | some (Message.mdict _ (some tc)) => tc.getD []
      | some (Message.mlist items) =>
          items.foldl (fun acc it =>
            match it with
            | MsgItem.idict _ _ tc _ => acc ++ tc.getD []
            | MsgItem.iraw _ => acc) []
      | _ => []

/-- Call records found in the last 5 entries of the model-interaction log
(`src/agent.py` lines 346-357). -/
def convToolCalls (conversation : List (Option (List ToolCall))) : List ToolCall :=
  (pySliceLast conversation 5).foldl (fun acc m => acc ++ m.getD []) []

/-- All discovered call records: the result object's, then the log's
(`tool_calls.extend`, appended in discovery order). -/
def discoveredCalls (out : InvokeOut) : List ToolCall :=
  respToolCalls out.resp ++ convToolCalls out.conversation

/-- One reconstructed Trace Entry (`response_trace` items,
`src/agent.py` lines 395-400, 407-411 and 465-470): a mapping with a
`type` discriminator and the keys that entry kind carries. -/
structure TraceEntry where
  type : String := ""
  name : Option String := none
  action : String := ""
  url : Option String := none
  tool : Option String := none
  method : Option String := none
deriving DecidableEq

/-- The entry appended when an agent-routing call is recognised. -/
def agentTraceEntry (agent_name agent_url : String) : TraceEntry :=
  { type := "agent", name := some agent_name, action := "routed_to", url := some agent_url }

/-- The entry appended when a namespaced tool call is recognised. -/
def toolTraceEntry (tool_name : String) : TraceEntry :=
  { type := "tool", tool := some tool_name, action := "called_mcp_tool" }

/-- The entry appended by the lexical fallback scan. -/
def detectedTraceEntry (agent_name : String) : TraceEntry :=
  { type := "agent", name := some agent_name, action := "detected_in_response",
    method := some "message_parsing" }

/-- The mutable accumulators of the classification loop
(`specialized_agents`, `mcp_tools_used`, `response_trace`). -/
structure ClassState where
  specialized_agents : List String := []
  mcp_tools_used : List String := []
  response_trace : List TraceEntry := []
deriving DecidableEq

/-- Does the call name match the agent-routing signature
(`src/agent.py` line 381)? -/
def isA2AName (tool_name : String) : Bool :=
  containsStr (lowerStr tool_name) "a2a"
    || containsStr (lowerStr tool_name) "send_message"
    || containsStr (lowerStr tool_name) "discover_agent"

/-- The agent URL a call record carries
(`tool_args.get('target_agent_url') or tool_args.get('url', '')`). -/
def callAgentUrl (tc : ToolCall) : String :=
  (pyOrOS tc.arguments.target_agent_url (some (tc.arguments.url.getD ""))).getD ""

/-- One iteration of the classification loop over discovered call records
(`src/agent.py` lines 369-411): agent-routing calls are mapped through
the static URL table and deduplicated by agent name; otherwise a name
containing both the substring `target` (case-insensitive) and the `___`
separator is recorded as a tool call, deduplicated by exact name. -/
def classStep (st : ClassState) (tc : ToolCall) : ClassState :=
  if isA2AName tc.name then
    let agent_url := callAgentUrl tc
    if agent_url != "" then
      match lookupAgentUrl agent_url with
      | some agent_name =>
          if agent_name ∉ st.specialized_agents then
            { st with
              specialized_agents := st.specialized_agents ++ [agent_name],
              response_trace := st.response_trace ++ [agentTraceEntry agent_name agent_url] }
          else st
      | none => st
    else st
  else if containsStr (lowerStr tc.name) "target" && containsStr tc.name "___" then
    if tc.name ∉ st.mcp_tools_used then
      { st with
        mcp_tools_used := st.mcp_tools_used ++ [tc.name],
        response_trace := st.response_trace ++ [toolTraceEntry tc.name] }
    else st
  else st

/-- The full classification loop, starting from empty accumulators. -/
def classifyCalls (calls : List ToolCall) : ClassState :=
  calls.foldl classStep {}

/-- The message payload coerced to a string
(`src/agent.py` lines 413-437): a mapping-shaped `message` yields its
`content` value, a list-shaped one the space-joined text of its items,
anything else its `str(...)` form; with no `message` attribute the
`content` attribute, else `str(response)`. -/
def rawMessageContent (r : ModelResponse) : String :=
  match r.message with
  | some (Message.mdict content _) => content.getD ""
  | some (Message.mlist items) =>
      joinSep " " (items.map fun it =>
        match it with
        | MsgItem.idict text content _ reprS =>
            (pyOrOS text (pyOrOS content (some reprS))).getD ""
        | MsgItem.iraw reprS => reprS)
  | some (Message.mraw s) => s
  | none =>
      match r.content with
      | some c => c
      | none => r.reprS

/-- The bracket-unwrap of `src/agent.py` lines 440-448: when the string
looks like a serialized list, `ast.literal_eval` is attempted and a
single textual field unwrapped.  A Python-literal parser is outside this
embedding; the branch where parsing fails (or yields no replacement) is
modelled, leaving the content unchanged — no claim depends on the
successful-parse branch. -/
def cleanupMessage (s : String) : String := s

/-- One iteration of the lexical fallback scan
(`src/agent.py` lines 462-470). -/
def fbStep (message_lower : String) (acc : ClassState) (kw : String × String) : ClassState :=
  if containsStr message_lower kw.1 = true ∧ kw.2 ∉ acc.specialized_agents then
    { acc with
      specialized_agents := acc.specialized_agents ++ [kw.2],
      response_trace := acc.response_trace ++ [detectedTraceEntry kw.2] }
  else acc

/-- The lexical fallback scan (`src/agent.py` lines 450-470): when no
agent was recognised structurally, each known agent name found in the
lower-cased message is appended, keyword-table order, provenance
`detected_in_response`. -/
def fallbackScan (message_lower : String) (st : ClassState) : ClassState :=
  agent_keywords.foldl (fbStep message_lower) st

/-- The classification state after the structural pass over the
discovered call records and, when it recognised no agent, the lexical
fallback over the lower-cased message (`src/agent.py` lines 369-470). -/
def finalState (out : InvokeOut) : ClassState :=
  let st0 := classifyCalls (discoveredCalls out)
  if st0.specialized_agents.isEmpty then
    fallbackScan (lowerStr (cleanupMessage (rawMessageContent out.resp))) st0
  else st0

/-! ## Response assembly (`src/agent.py` lines 474-525 and 672-767) -/

/-- One item of the UI-shaped `conversation_context` projection
(`src/agent.py` lines 489-509). -/
inductive CtxItem where
  | agentItem (target_agent_url : String) (agent_name : Option String) (timestamp : String)
  | toolItem (name : Option String) (fn : String) (timestamp : String)
deriving DecidableEq

/-- Project the reconstructed trace into the UI shape
(`src/agent.py` lines 489-509): agent entries become synthetic
`a2a_send_message` call records, tool entries carry the tool name and an
empty `function` field (no trace entry has a `function` key). -/
def ctxProjection (now : String) (rt : List TraceEntry) : List CtxItem :=
  rt.foldl (fun acc e =>
    if e.type == "agent" then acc ++ [CtxItem.agentItem (e.url.getD "") e.name now]
    else if e.type == "tool" then acc ++ [CtxItem.toolItem e.tool "" now]
    else acc) []

/-- The `memory_info` block (`src/agent.py` lines 716-720). -/
structure MemoryInfo where
  memory_enabled : Bool
  conversation_length : Nat
  user_context_stored : Bool
deriving DecidableEq

/-- The `session_info` block (`src/agent.py` lines 743-752). -/
structure SessionInfo where
  runtime_session_id : Option String
  note : String
deriving DecidableEq

/-- The `auth_info` block (`src/agent.py` lines 675-679). -/
structure AuthInfo where
  department : String
  permissions : List String
  username : Option String
deriving DecidableEq

/-- One synthetic processing step (`src/agent.py` lines 682-713). -/
structure Step where
  step : String
  description : String
  status : String
deriving DecidableEq

/-- The outbound envelope, success or error.  Every field is optional:
`none` models an absent key, so the two bare error envelopes of the
validation gates (`src/agent.py` lines 589 and 604) are values whose only
present key is `error`.  `ctx_runtime_session_id`/`ctx_session_id` and
`conversation_context` model the keys injected into the echoed `context`
mapping (`src/agent.py` lines 512 and 760-761). -/
structure ResponseEnv where
  message : Option String := none
  status : Option String := none
  error : Option String := none
  timestamp : Option String := none
  agent : Option String := none
  model : Option String := none
  context : Option Ctx := none
  conversation_context : Option (List CtxItem) := none
  ctx_runtime_session_id : Option String := none
  ctx_session_id : Option String := none
  authenticated : Option Bool := none
  specialized_agents : Option (List String) := none
  mcp_tools_used : Option (List String) := none
  response_trace : Option (List TraceEntry) := none
  auth_info : Option AuthInfo := none
  processing_steps : Option (List Step) := none
  memory_info : Option MemoryInfo := none
  session_info : Option SessionInfo := none
  session_id : Option String := none
deriving DecidableEq

/-- `SupervisorAgent.process_request` (`src/agent.py` lines 202-525).
`store` is the Memory Store and `invoke` the language-model decision step
(`self.agent.invoke_async`), which either yields a result object and the
interaction log or raises; `now` stands for `datetime.now().isoformat()`.
A raised decision step produces the error envelope of lines 518-525;
otherwise the trace is reconstructed and the success envelope of lines
475-514 is built. -/
def process_request (store : MemoryStore) (invoke : String → Except String InvokeOut)
    (now : String) (question : String) (context : Option Ctx) : ResponseEnv :=
  match invoke (userInfoText store question context) with
  | .error e =>
      { error := some ("Failed to process request: " ++ e),
        status := some "error",
        timestamp := some now,
        agent := some "SupervisorAgent",
        authenticated := some ((context.map Ctx.authenticated).getD false),
        context := some (context.getD {}) }
  | .ok out =>
      let message_content := cleanupMessage (rawMessageContent out.resp)
      let st := finalState out
      { message := some message_content,
        status := some "processed",
        timestamp := some now,
        agent := some "SupervisorAgent",
        model := some BEDROCK_MODEL_ID,
        context := some (context.getD {}),
        authenticated := some ((context.map Ctx.authenticated).getD false),
        specialized_agents := some st.specialized_agents,
        mcp_tools_used := some st.mcp_tools_used,
        response_trace := some st.response_trace,
        conversation_context :=
          if context.isSome then some (ctxProjection now st.response_trace) else none }

/-! ## The `send_message` entrypoint (`src/agent.py` lines 532-767) -/

/-- The nested `context` mapping of an inbound request, restricted to the
keys the entrypoint reads; `none` models an absent key. -/
structure ReqContext where
  user_id : Option String := none
  runtimeSessionId : Option String := none
  runtime_session_id : Option String := none
  username : Option String := none
  customer_tier : Option String := none
  department : Option String := none
  permissions : List String := []
  authenticated : Bool := false
  conversation_history : List HistMsg := []
deriving DecidableEq

/-- An inbound request mapping.  `context` is the result of
`request.get("context", {}) or {}`, so a falsy `context` value is the
all-default `ReqContext`. -/
structure Request where
  input : Option String := none
  prompt : Option String := none
  question : Option String := none
  user_id : Option String := none
  session_id : Option String := none
  include_details : Bool := false
  context : ReqContext := {}
deriving DecidableEq

/-- The raw inbound payload: a mapping (or an object convertible to one
via `__dict__`/`dict()`, `src/agent.py` lines 580-584), or anything else,
which fails the shape gate of line 587. -/
inductive Inbound where
  | dict (r : Request)
  | invalid (reprS : String)
deriving DecidableEq

/-- Identity resolution (`user_id_for_ltm`, `src/agent.py` lines 629-633):
`context.get("user_id") or request.get("user_id") or "anonymous"`. -/
def resolveIdentity (ctxUserId reqUserId : Option String) : String :=
  (pyOrOS ctxUserId (pyOrOS reqUserId (some "anonymous"))).getD "anonymous"

/-- Session-key resolution (`runtime_session_id`,
`src/agent.py` lines 611-615): `request.get("session_id") or
context.get("runtimeSessionId") or context.get("runtime_session_id")`. -/
def resolveSessionKey (reqSessionId ctxRuntimeSessionId ctxRuntimeSessionId2 : Option String) :
    Option String :=
  pyOrOS reqSessionId (pyOrOS ctxRuntimeSessionId ctxRuntimeSessionId2)

/-- The note attached when a session key is known
(`src/agent.py` line 746). -/
def sessionNoteKnown : String :=
  "Session managed by AgentCore Runtime. Use same session ID for follow-up interactions."

/-- The note naming the platform limitation when no session key is
recoverable (`src/agent.py` line 751). -/
def sessionNoteMissing : String :=
  "AgentCore Runtime auto-generated a session ID internally, but it's not accessible in the entrypoint. To maintain session continuity, explicitly provide a session_id in the request body or use --session-id flag with agentcore invoke."

/-- The enhanced context handed to `process_request`
(`src/agent.py` lines 629-662): the identity- and session-resolution
results merged over the request context, with `memory_enabled` set and
the conversation history echoed under both keys. -/
def enhancedCtx (r : Request) : Ctx :=
  let context := r.context
  let runtime_session_id :=
    resolveSessionKey r.session_id context.runtimeSessionId context.runtime_session_id
  { user_id := some (resolveIdentity context.user_id r.user_id),
    username := context.username,
    customer_tier := some (context.customer_tier.getD "standard"),
    department := some (context.department.getD "general"),
    permissions := context.permissions,
    authenticated := context.authenticated,
    memory_enabled := true,
    runtime_session_id := runtime_session_id,
    session_id := runtime_session_id,
    conversation_history := context.conversation_history,
    conversation_context := context.conversation_history }

/-- The synthetic processing steps (`src/agent.py` lines 682-713). -/
def processingSteps (username : Option String) (department : String)
    (permissions : List String) : List Step :=
  [{ step := "Authentication Verification",
     description := "Verified user: " ++ pyStr username, status := "completed" },
   { step := "Memory Context Loading",
     description := "Loading conversation history and user preferences from memory",
     status := "completed" },
   { step := "Request Classification",
     description := "Classified as " ++ department ++ " department request",
     status := "completed" },
   { step := "Permission Check",
     description := "User has " ++ natStr permissions.length ++ " permissions",
     status := "completed" },
   { step := "Response Generation",
     description := "Generated response for " ++ pyStr username ++ " with memory context",
     status := "completed" },
   { step := "Memory Storage",
     description := "Storing conversation context and user preferences for future interactions",
     status := "completed" }]

/-- The `send_message` entrypoint (`src/agent.py` lines 532-767).
`appSessionId` models what the AgentCore Runtime app context exposes at
lines 730-740 (per the source's own comments, normally nothing).  A
non-mapping payload and a missing text field fail early with the bare
error envelopes of lines 589 and 604; otherwise identity and session are
resolved, the enhanced context built, `process_request` run, and the
result decorated with `memory_info`, `session_info` and the session-id
echoes. -/
def send_message (store : MemoryStore) (invoke : String → Except String InvokeOut)
    (appSessionId : Option String) (now : String) : Inbound → ResponseEnv
  | Inbound.invalid _ =>
      { error := some "Invalid request format. Request must be a dictionary." }
  | Inbound.dict r =>
      let context := r.context
      let question? := pyOrOS r.input (pyOrOS r.prompt r.question)
      if strTruthy question? then
        let question := question?.getD ""
        let runtime_session_id :=
          resolveSessionKey r.session_id context.runtimeSessionId context.runtime_session_id
        let department := context.department.getD "general"
        let enhanced := enhancedCtx r
        let resp0 := process_request store invoke now question (some enhanced)
        let resp1 := if r.include_details && context.authenticated then
            { resp0 with
              auth_info := some
                { department := department, permissions := context.permissions,
                  username := context.username },
              processing_steps :=
                some (processingSteps context.username department context.permissions) }
          else resp0
        let resp2 := { resp1 with
          memory_info := some
            { memory_enabled := true,
              conversation_length := enhanced.conversation_context.length,
              user_context_stored := context.authenticated } }
        let rsid := if strTruthy runtime_session_id then runtime_session_id else appSessionId
        let resp3 := if strTruthy rsid then
            { resp2 with session_info := some ⟨rsid, sessionNoteKnown⟩ }
          else
            { resp2 with session_info := some ⟨none, sessionNoteMissing⟩ }
        if strTruthy rsid then
          { resp3 with
            session_id := rsid, ctx_runtime_session_id := rsid, ctx_session_id := rsid }
        else resp3
      else
        { error := some "No question provided. Request must contain 'input', 'prompt', or 'question' field." }

/-! ## Verification layer

Predicates naming what the classification loop reacts to, and the
behaviour of one loop iteration, from which the trace-reconstruction
properties follow by induction.
-/

/-- The call record is an agent-routing call that resolves (through the
static URL table) to the agent named `n`. -/
def routesToAgent (n : String) (tc : ToolCall) : Bool :=
  isA2AName tc.name && callAgentUrl tc != "" && lookupAgentUrl (callAgentUrl tc) == some n

/-- The call record is recognised by the tool branch of the loop and
carries the exact tool identifier `n`. -/
def recordsTool (n : String) (tc : ToolCall) : Bool :=
  !(isA2AName tc.name) && containsStr (lowerStr tc.name) "target"
    && containsStr tc.name "___" && tc.name == n

/-- The agent name a trace entry carries, when it is an agent entry. -/
def agentEntryName (e : TraceEntry) : Option String :=
  if e.type == "agent" then e.name else none

/-- The tool identifier a trace entry carries, when it is a tool entry. -/
def toolEntryName (e : TraceEntry) : Option String :=
  if e.type == "tool" then e.tool else none

/-- The trace entry is of kind agent and names `n`. -/
def isAgentEntryFor (n : String) (e : TraceEntry) : Bool :=
  agentEntryName e == some n

/-- The trace entry is of kind tool and carries identifier `n`. -/
def isToolEntryFor (n : String) (e : TraceEntry) : Bool :=
  toolEntryName e == some n

lemma classStep_sa_count (st : ClassState) (tc : ToolCall) (n : String) :
    (classStep st tc).specialized_agents.count n =
      st.specialized_agents.count n +
        (if routesToAgent n tc = true ∧ n ∉ st.specialized_agents then 1 else 0) := by
  by_cases hA : isA2AName tc.name = true
  case pos =>
    by_cases hu : callAgentUrl tc = ""
    case pos => simp [classStep, routesToAgent, hA, hu]
    case neg =>
      rcases hlk : lookupAgentUrl (callAgentUrl tc) with _ | m
      case none => simp [classStep, routesToAgent, hA, hu, hlk]
      case some =>
        by_cases hm : m ∈ st.specialized_agents
        case pos =>
          by_cases hmn : m = n
          case pos =>
            subst hmn
            simp [classStep, routesToAgent, hA, hu, hlk, hm]
          case neg =>
            simp [classStep, routesToAgent, hA, hu, hlk, hm, hmn]
        case neg =>
          by_cases hmn : m = n
          case pos =>
            subst hmn
            simp [classStep, routesToAgent, hA, hu, hlk, hm, List.count_append,
              List.count_cons, List.count_nil]
          case neg =>
            simp [classStep, routesToAgent, hA, hu, hlk, hm, hmn, List.count_append,
              List.count_cons, List.count_nil]
  case neg =>
    unfold classStep routesToAgent
    simp only [hA, Bool.false_eq_true, if_false, Bool.false_and, false_and, if_neg,
      not_false_eq_true]
    split_ifs <;> simp_all

lemma classStep_mt_count (st : ClassState) (tc : ToolCall) (n : String) :
    (classStep st tc).mcp_tools_used.count n =
      st.mcp_tools_used.count n +
        (if recordsTool n tc = true ∧ n ∉ st.mcp_tools_used then 1 else 0) := by
  by_cases hA : isA2AName tc.name = true
  case pos =>
    have hr : recordsTool n tc = false := by simp [recordsTool, hA]
    by_cases hu : callAgentUrl tc = ""
    case pos => simp [classStep, hA, hu, hr]
    case neg =>
      rcases hlk : lookupAgentUrl (callAgentUrl tc) with _ | m
      case none => simp [classStep, hA, hu, hlk, hr]
      case some =>
        by_cases hm : m ∈ st.specialized_agents <;>
          simp [classStep, hA, hu, hlk, hm, hr]
  case neg =>
    by_cases hT : (containsStr (lowerStr tc.name) "target" && containsStr tc.name "___") = true
    case pos =>
      by_cases hmem : tc.name ∈ st.mcp_tools_used
      case pos =>
        by_cases hn : tc.name = n
        case pos =>
          subst hn
          simp_all [classStep, recordsTool]
        case neg =>
          simp_all [classStep, recordsTool]
      case neg =>
        by_cases hn : tc.name = n
        case pos =>
          subst hn
          simp_all [classStep, recordsTool, List.count_append, List.count_cons, List.count_nil]
        case neg =>
          simp_all [classStep, recordsTool, List.count_append, List.count_cons, List.count_nil]
    case neg =>
      have h1 : (containsStr (lowerStr tc.name) "target" && containsStr tc.name "___") = false := by
        simpa using hT
      rcases Bool.and_eq_false_iff.mp h1 with h | h <;>
        simp_all [classStep, recordsTool]

lemma foldl_sa_count_of_mem (calls : List ToolCall) :
    ∀ (st : ClassState) (n : String), n ∈ st.specialized_agents →
      (calls.foldl classStep st).specialized_agents.count n = st.specialized_agents.count n ∧
      n ∈ (calls.foldl classStep st).specialized_agents := by
  induction calls with
  | nil => exact fun st n h => ⟨rfl, h⟩
  | cons tc rest ih =>
      intro st n h
      have hstep : (classStep st tc).specialized_agents.count n =
          st.specialized_agents.count n := by
        rw [classStep_sa_count, if_neg]
        · simp
        · rintro ⟨-, hn⟩; exact hn h
      have hmem : n ∈ (classStep st tc).specialized_agents :=
        List.count_pos_iff.mp (hstep ▸ List.count_pos_iff.mpr h)
      have hrec := ih (classStep st tc) n hmem
      rw [List.foldl_cons]
      exact ⟨hrec.1.trans hstep, hrec.2⟩

lemma foldl_sa_count_of_miss (calls : List ToolCall) :
    ∀ (st : ClassState) (n : String), n ∉ st.specialized_agents →
      (∀ tc ∈ calls, routesToAgent n tc = false) →
      (calls.foldl classStep st).specialized_agents.count n = 0 := by
  induction calls with
  | nil =>
      intro st n h _
      exact List.count_eq_zero.mpr h
  | cons tc rest ih =>
      intro st n h hall
      rw [List.foldl_cons]
      have hz : (classStep st tc).specialized_agents.count n = 0 := by
        rw [classStep_sa_count, if_neg, List.count_eq_zero.mpr h]
        rintro ⟨hr, -⟩
        rw [hall tc (List.mem_cons_self tc rest)] at hr
        exact Bool.false_ne_true hr
      exact ih _ n (List.count_eq_zero.mp hz) (fun c hc => hall c (List.mem_cons_of_mem _ hc))

lemma foldl_sa_count_of_hit (calls : List ToolCall) :
    ∀ (st : ClassState) (n : String), n ∉ st.specialized_agents →
      (∃ tc ∈ calls, routesToAgent n tc = true) →
      (calls.foldl classStep st).specialized_agents.count n = 1 := by
  induction calls with
  | nil => rintro st n - ⟨tc, h, -⟩; exact absurd h (List.not_mem_nil tc)
  | cons tc rest ih =>
      rintro st n h ⟨w, hw, hr⟩
      rw [List.foldl_cons]
      by_cases htc : routesToAgent n tc = true
      · have h1 : (classStep st tc).specialized_agents.count n = 1 := by
          rw [classStep_sa_count, if_pos ⟨htc, h⟩, List.count_eq_zero.mpr h]
        have hmem : n ∈ (classStep st tc).specialized_agents :=
          List.count_pos_iff.mp (by rw [h1]; exact Nat.one_pos)
        rw [(foldl_sa_count_of_mem rest _ n hmem).1, h1]
      · have hz : (classStep st tc).specialized_agents.count n = 0 := by
          rw [classStep_sa_count, if_neg, List.count_eq_zero.mpr h]
          rintro ⟨hr', -⟩; exact htc hr'
        rcases List.mem_cons.mp hw with rfl | hw'
        · exact absurd hr htc
        · exact ih _ n (List.count_eq_zero.mp hz) ⟨w, hw', hr⟩

lemma foldl_mt_count_of_mem (calls : List ToolCall) :
    ∀ (st : ClassState) (n : String), n ∈ st.mcp_tools_used →
      (calls.foldl classStep st).mcp_tools_used.count n = st.mcp_tools_used.count n ∧
      n ∈ (calls.foldl classStep st).mcp_tools_used := by
  induction calls with
  | nil => exact fun st n h => ⟨rfl, h⟩
  | cons tc rest ih =>
      intro st n h
      have hstep : (classStep st tc).mcp_tools_used.count n = st.mcp_tools_used.count n := by
        rw [classStep_mt_count, if_neg]
        · simp
        · rintro ⟨-, hn⟩; exact hn h
      have hmem : n ∈ (classStep st tc).mcp_tools_used :=
        List.count_pos_iff.mp (hstep ▸ List.count_pos_iff.mpr h)
      have hrec := ih (classStep st tc) n hmem
      rw [List.foldl_cons]
      exact ⟨hrec.1.trans hstep, hrec.2⟩

lemma foldl_mt_count_of_hit (calls : List ToolCall) :
    ∀ (st : ClassState) (n : String), n ∉ st.mcp_tools_used →
      (∃ tc ∈ calls, recordsTool n tc = true) →
      (calls.foldl classStep st).mcp_tools_used.count n = 1 := by
  induction calls with
  | nil => rintro st n - ⟨tc, h, -⟩; exact absurd h (List.not_mem_nil tc)
  | cons tc rest ih =>
      rintro st n h ⟨w, hw, hr⟩
      rw [List.foldl_cons]
      by_cases htc : recordsTool n tc = true
      · have h1 : (classStep st tc).mcp_tools_used.count n = 1 := by
          rw [classStep_mt_count, if_pos ⟨htc, h⟩, List.count_eq_zero.mpr h]
        have hmem : n ∈ (classStep st tc).mcp_tools_used :=
          List.count_pos_iff.mp (by rw [h1]; exact Nat.one_pos)
        rw [(foldl_mt_count_of_mem rest _ n hmem).1, h1]
      · have hz : (classStep st tc).mcp_tools_used.count n = 0 := by
          rw [classStep_mt_count, if_neg, List.count_eq_zero.mpr h]
          rintro ⟨hr', -⟩; exact htc hr'
        rcases List.mem_cons.mp hw with rfl | hw'
        · exact absurd hr htc
        · exact ih _ n (List.count_eq_zero.mp hz) ⟨w, hw', hr⟩

lemma count_filterMap_eq_countP (f : TraceEntry → Option String) (l : List TraceEntry)
    (n : String) :
    (l.filterMap f).count n = l.countP (fun e => f e == some n) := by
  induction l with
  | nil => rfl
  | cons e t ih =>
      rcases hf : f e with _ | m
      · simp [List.filterMap_cons, hf, List.countP_cons, ih]
      · by_cases hm : m = n
        · subst hm
          simp [List.filterMap_cons, hf, List.countP_cons, List.count_cons, ih]
        · simp [List.filterMap_cons, hf, List.countP_cons, List.count_cons, hm, ih]

/-- The loop invariant tying the two name lists to the trace:
`specialized_agents` is, element for element and in order, the names of
the agent entries of `response_trace`, `mcp_tools_used` the identifiers
of its tool entries, and both lists are duplicate-free. -/
structure GoodState (st : ClassState) : Prop where
  sa_eq : st.specialized_agents = st.response_trace.filterMap agentEntryName
  mt_eq : st.mcp_tools_used = st.response_trace.filterMap toolEntryName
  sa_nodup : st.specialized_agents.Nodup
  mt_nodup : st.mcp_tools_used.Nodup

lemma goodState_empty : GoodState {} := ⟨rfl, rfl, List.nodup_nil, List.nodup_nil⟩

lemma nodup_concat {l : List String} {a : String} (h : a ∉ l) (hl : l.Nodup) :
    (l ++ [a]).Nodup := by simp [List.nodup_append, h, hl]

lemma goodState_classStep (st : ClassState) (tc : ToolCall) (h : GoodState st) :
    GoodState (classStep st tc) := by
  by_cases hA : isA2AName tc.name = true
  case pos =>
    by_cases hu : callAgentUrl tc = ""
    case pos =>
      have hst : classStep st tc = st := by simp [classStep, hA, hu]
      rw [hst]; exact h
    case neg =>
      rcases hlk : lookupAgentUrl (callAgentUrl tc) with _ | m
      case none =>
        have hst : classStep st tc = st := by simp [classStep, hA, hu, hlk]
        rw [hst]; exact h
      case some =>
        by_cases hm : m ∈ st.specialized_agents
        case pos =>
          have hst : classStep st tc = st := by simp [classStep, hA, hu, hlk, hm]
          rw [hst]; exact h
        case neg =>
          have hst : classStep st tc =
              { st with
                specialized_agents := st.specialized_agents ++ [m],
                response_trace :=
                  st.response_trace ++ [agentTraceEntry m (callAgentUrl tc)] } := by
            simp [classStep, hA, hu, hlk, hm]
          rw [hst]
          refine ⟨?_, ?_, nodup_concat hm h.sa_nodup, h.mt_nodup⟩
          · simp only [List.filterMap_append]
            rw [← h.sa_eq]
            simp [agentEntryName, agentTraceEntry]
          · simp only [List.filterMap_append]
            rw [show st.mcp_tools_used = st.response_trace.filterMap toolEntryName from h.mt_eq]
            simp [toolEntryName, agentTraceEntry]
  case neg =>
    by_cases hT : (containsStr (lowerStr tc.name) "target" && containsStr tc.name "___") = true
    case pos =>
      by_cases hmem : tc.name ∈ st.mcp_tools_used
      case pos =>
        have hst : classStep st tc = st := by simp_all [classStep]
        rw [hst]; exact h
      case neg =>
        have hst : classStep st tc =
            { st with
              mcp_tools_used := st.mcp_tools_used ++ [tc.name],
              response_trace := st.response_trace ++ [toolTraceEntry tc.name] } := by
          simp_all [classStep]
        rw [hst]
        refine ⟨?_, ?_, h.sa_nodup, nodup_concat hmem h.mt_nodup⟩
        · simp only [List.filterMap_append]
          rw [show st.specialized_agents = st.response_trace.filterMap agentEntryName from h.sa_eq]
          simp [agentEntryName, toolTraceEntry]
        · simp only [List.filterMap_append]
          rw [← h.mt_eq]
          simp [toolEntryName, toolTraceEntry]
    case neg =>
      have h1 : (containsStr (lowerStr tc.name) "target" && containsStr tc.name "___") = false := by
        simpa using hT
      have hst : classStep st tc = st := by
        rcases Bool.and_eq_false_iff.mp h1 with hx | hx <;> simp_all [classStep]
      rw [hst]; exact h

lemma goodState_foldl (calls : List ToolCall) :
    ∀ st : ClassState, GoodState st → GoodState (calls.foldl classStep st) := by
  induction calls with
  | nil => exact fun st h => h
  | cons tc rest ih =>
      intro st h
      rw [List.foldl_cons]
      exact ih _ (goodState_classStep st tc h)

lemma goodState_classifyCalls (calls : List ToolCall) : GoodState (classifyCalls calls) :=
  goodState_foldl calls {} goodState_empty

lemma goodState_fbStep (m : String) (st : ClassState) (kw : String × String)
    (h : GoodState st) : GoodState (fbStep m st kw) := by
  unfold fbStep
  split_ifs with hc
  · refine ⟨?_, ?_, nodup_concat hc.2 h.sa_nodup, h.mt_nodup⟩
    · simp only [List.filterMap_append]
      rw [← h.sa_eq]
      simp [agentEntryName, detectedTraceEntry]
    · simp only [List.filterMap_append]
      rw [show st.mcp_tools_used = st.response_trace.filterMap toolEntryName from h.mt_eq]
      simp [toolEntryName, detectedTraceEntry]
  · exact h

lemma goodState_fb_foldl (m : String) (kws : List (String × String)) :
    ∀ st : ClassState, GoodState st → GoodState (kws.foldl (fbStep m) st) := by
  induction kws with
  | nil => exact fun st h => h
  | cons kw rest ih =>
      intro st h
      rw [List.foldl_cons]
      exact ih _ (goodState_fbStep m st kw h)

lemma goodState_fallbackScan (m : String) (st : ClassState) (h : GoodState st) :
    GoodState (fallbackScan m st) :=
  goodState_fb_foldl m agent_keywords st h

lemma fbStep_mt (m : String) (st : ClassState) (kw : String × String) :
    (fbStep m st kw).mcp_tools_used = st.mcp_tools_used := by
  unfold fbStep; split_ifs <;> rfl

lemma fbStep_toolcount (m : String) (st : ClassState) (kw : String × String) (n : String) :
    (fbStep m st kw).response_trace.countP (isToolEntryFor n) =
      st.response_trace.countP (isToolEntryFor n) := by
  unfold fbStep
  split_ifs <;>
    simp [List.countP_append, isToolEntryFor, toolEntryName, detectedTraceEntry]

lemma fallbackScan_mt (m : String) (st : ClassState) :
    (fallbackScan m st).mcp_tools_used = st.mcp_tools_used := by
  have haux : ∀ (kws : List (String × String)) (st : ClassState),
      (kws.foldl (fbStep m) st).mcp_tools_used = st.mcp_tools_used := by
    intro kws
    induction kws with
    | nil => exact fun _ => rfl
    | cons kw rest ih =>
        intro st
        rw [List.foldl_cons, ih, fbStep_mt]
  exact haux agent_keywords st

lemma fallbackScan_toolcount (m : String) (st : ClassState) (n : String) :
    (fallbackScan m st).response_trace.countP (isToolEntryFor n) =
      st.response_trace.countP (isToolEntryFor n) := by
  have haux : ∀ (kws : List (String × String)) (st : ClassState),
      (kws.foldl (fbStep m) st).response_trace.countP (isToolEntryFor n) =
        st.response_trace.countP (isToolEntryFor n) := by
    intro kws
    induction kws with
    | nil => exact fun _ => rfl
    | cons kw rest ih =>
        intro st
        rw [List.foldl_cons, ih, fbStep_toolcount]
  exact haux agent_keywords st

lemma countP_agent_of_goodState (st : ClassState) (h : GoodState st) (n : String) :
    st.response_trace.countP (isAgentEntryFor n) = st.specialized_agents.count n := by
  rw [h.sa_eq, count_filterMap_eq_countP]
  rfl

lemma countP_tool_of_goodState (st : ClassState) (h : GoodState st) (n : String) :
    st.response_trace.countP (isToolEntryFor n) = st.mcp_tools_used.count n := by
  rw [h.mt_eq, count_filterMap_eq_countP]
  rfl

/-! Fixtures: concrete collaborators used by the closed witnesses. -/

/-- A Memory Store that succeeds with no data. -/
def emptyStore : MemoryStore :=
  { get_last_k_turns := fun _ _ _ _ => .ok [],
    retrieve_memories := fun _ _ _ _ => .ok [] }

/-- A Memory Store whose recent-turn retrieval raises, simulating a
timeout. -/
def timeoutStore : MemoryStore :=
  { get_last_k_turns := fun _ _ _ _ => .error "timeout",
    retrieve_memories := fun _ _ _ _ => .ok [] }

/-- A Memory Store with no recent turns but one semantic match. -/
def prefStore : MemoryStore :=
  { get_last_k_turns := fun _ _ _ _ => .ok [],
    retrieve_memories := fun _ _ _ _ =>
      .ok [{ contentText := some "User prefers email contact" }] }

/-- A decision step that always succeeds with an empty result object. -/
def okDecision : String → Except String InvokeOut := fun _ => .ok {}

/-- A decision step that always raises. -/
def failDecision : String → Except String InvokeOut := fun _ => .error "boom"

/-- The envelope fields `process_request` never sets, and the echoed
context, independent of the decision step's outcome. -/
lemma process_request_fixed_fields (store : MemoryStore)
    (invoke : String → Except String InvokeOut) (now question : String)
    (context : Option Ctx) :
    (process_request store invoke now question context).session_info = none ∧
    (process_request store invoke now question context).session_id = none ∧
    (process_request store invoke now question context).ctx_runtime_session_id = none ∧
    (process_request store invoke now question context).ctx_session_id = none ∧
    (process_request store invoke now question context).memory_info = none ∧
    (process_request store invoke now question context).auth_info = none ∧
    (process_request store invoke now question context).processing_steps = none ∧
    (process_request store invoke now question context).context = some (context.getD {}) := by
  unfold process_request
  rcases invoke (userInfoText store question context) with e | out <;> simp

lemma send_message_core_fields (store : MemoryStore)
    (invoke : String → Except String InvokeOut) (app : Option String) (now : String)
    (r : Request) (hq : strTruthy (pyOrOS r.input (pyOrOS r.prompt r.question)) = true) :
    (send_message store invoke app now (Inbound.dict r)).message =
      (process_request store invoke now ((pyOrOS r.input (pyOrOS r.prompt r.question)).getD "")
        (some (enhancedCtx r))).message ∧
    (send_message store invoke app now (Inbound.dict r)).status =
      (process_request store invoke now ((pyOrOS r.input (pyOrOS r.prompt r.question)).getD "")
        (some (enhancedCtx r))).status ∧
    (send_message store invoke app now (Inbound.dict r)).error =
      (process_request store invoke now ((pyOrOS r.input (pyOrOS r.prompt r.question)).getD "")
        (some (enhancedCtx r))).error ∧
    (send_message store invoke app now (Inbound.dict r)).context =
      (process_request store invoke now ((pyOrOS r.input (pyOrOS r.prompt r.question)).getD "")
        (some (enhancedCtx r))).context ∧
    (send_message store invoke app now (Inbound.dict r)).specialized_agents =
      (process_request store invoke now ((pyOrOS r.input (pyOrOS r.prompt r.question)).getD "")
        (some (enhancedCtx r))).specialized_agents ∧
    (send_message store invoke app now (Inbound.dict r)).mcp_tools_used =
      (process_request store invoke now ((pyOrOS r.input (pyOrOS r.prompt r.question)).getD "")
        (some (enhancedCtx r))).mcp_tools_used ∧
    (send_message store invoke app now (Inbound.dict r)).response_trace =
      (process_request store invoke now ((pyOrOS r.input (pyOrOS r.prompt r.question)).getD "")
        (some (enhancedCtx r))).response_trace := by
  simp only [send_message, hq, if_true]
  split_ifs <;> simp

end Support

namespace Support

lemma send_message_session_fields (store : MemoryStore)
    (invoke : String → Except String InvokeOut) (app : Option String) (now : String)
    (r : Request) (hq : strTruthy (pyOrOS r.input (pyOrOS r.prompt r.question)) = true) :
    (strTruthy (resolveSessionKey r.session_id r.context.runtimeSessionId
        r.context.runtime_session_id) = false → app = none →
      (send_message store invoke app now (Inbound.dict r)).session_info =
        some ⟨none, sessionNoteMissing⟩ ∧
      (send_message store invoke app now (Inbound.dict r)).session_id = none ∧
      (send_message store invoke app now (Inbound.dict r)).ctx_runtime_session_id = none ∧
      (send_message store invoke app now (Inbound.dict r)).ctx_session_id = none) ∧
    (strTruthy (resolveSessionKey r.session_id r.context.runtimeSessionId
        r.context.runtime_session_id) = true →
      (send_message store invoke app now (Inbound.dict r)).session_info =
        some ⟨resolveSessionKey r.session_id r.context.runtimeSessionId
          r.context.runtime_session_id, sessionNoteKnown⟩ ∧
      (send_message store invoke app now (Inbound.dict r)).session_id =
        resolveSessionKey r.session_id r.context.runtimeSessionId
          r.context.runtime_session_id) := by
  constructor
  · intro hs happ
    subst happ
    simp only [send_message, hq, if_true, hs, if_false, Bool.false_eq_true]
    have hfix := process_request_fixed_fields store invoke now
      ((pyOrOS r.input (pyOrOS r.prompt r.question)).getD "") (some (enhancedCtx r))
    split_ifs <;>
      simp_all [strTruthy]
  · intro hs
    simp only [send_message, hq, if_true, hs]
    exact ⟨trivial, trivial⟩

end Support

namespace Support

/-! ## The claims -/

/-- C1: identity precedence law.  For every mapping-shaped request the
resolved identity is `context.user_id` when present and non-empty, else
the top-level `user_id` when present and non-empty, else `"anonymous"`;
resolution is total (the resolver is a Lean function into `String`), and
when both sources are set the context one wins (first conjunct).  The
final conjunct ties the resolver to the entrypoint: the context echoed by
`send_message` carries exactly the resolved identity. -/
theorem C1_identity_precedence (cu ru : Option String) :
    (∀ s, cu = some s → s ≠ "" → resolveIdentity cu ru = s) ∧
    (strTruthy cu = false → ∀ s, ru = some s → s ≠ "" → resolveIdentity cu ru = s) ∧
    (strTruthy cu = false → strTruthy ru = false → resolveIdentity cu ru = "anonymous") ∧
    (∀ (store : MemoryStore) (invoke : String → Except String InvokeOut)
       (app : Option String) (now : String) (r : Request),
       strTruthy (pyOrOS r.input (pyOrOS r.prompt r.question)) = true →
       (send_message store invoke app now (Inbound.dict r)).context = some (enhancedCtx r) ∧
       (enhancedCtx r).user_id = some (resolveIdentity r.context.user_id r.user_id)) := by
  refine ⟨?_, ?_, ?_, ?_⟩
  · rintro s rfl hne
    simp [resolveIdentity, pyOrOS, strTruthy, hne]
  · rintro hcu s rfl hne
    have hs : strTruthy (some s) = true := by simp [strTruthy, hne]
    simp [resolveIdentity, pyOrOS, hcu, hs]
  · intro hcu hru
    simp [resolveIdentity, pyOrOS, hcu, hru]
  · intro store invoke app now r hq
    refine ⟨?_, rfl⟩
    have h := (send_message_core_fields store invoke app now r hq).2.2.2.1
    rw [h,
      (process_request_fixed_fields store invoke now
        ((pyOrOS r.input (pyOrOS r.prompt r.question)).getD "")
        (some (enhancedCtx r))).2.2.2.2.2.2.2]
    rfl

/-- Witness for C1 at concrete inputs. -/
theorem C1_identity_precedence_witness :
    resolveIdentity (some "u1") (some "u2") = "u1" ∧
    resolveIdentity none (some "u2") = "u2" ∧
    resolveIdentity (some "") none = "anonymous" ∧
    (send_message emptyStore okDecision none "t"
      (Inbound.dict { input := some "hi", user_id := some "u2",
                      context := { user_id := some "u1" } })).context =
      some (enhancedCtx { input := some "hi", user_id := some "u2",
                          context := { user_id := some "u1" } }) :=
  ⟨(C1_identity_precedence (some "u1") (some "u2")).1 "u1" rfl (by decide),
   (C1_identity_precedence none (some "u2")).2.1 (by decide) "u2" rfl (by decide),
   (C1_identity_precedence (some "") none).2.2.1 (by decide) (by decide),
   ((C1_identity_precedence (some "u1") (some "u2")).2.2.2 emptyStore okDecision none "t"
     { input := some "hi", user_id := some "u2", context := { user_id := some "u1" } }
     (by decide)).1⟩

/-- C4: missing-required-field gate.  When none of `input`, `prompt`,
`question` holds a non-empty text value, the entrypoint returns the bare
error envelope naming the accepted aliases; the returned value is a
constant independent of the Memory Store and the decision step (they are
universally quantified and absent from the result), so neither is
called. -/
theorem C4_missing_field_gate (store : MemoryStore)
    (invoke : String → Except String InvokeOut) (app : Option String) (now : String)
    (r : Request) (h1 : strTruthy r.input = false) (h2 : strTruthy r.prompt = false)
    (h3 : strTruthy r.question = false) :
    send_message store invoke app now (Inbound.dict r) =
      { error := some "No question provided. Request must contain 'input', 'prompt', or 'question' field." } ∧
    containsStr "No question provided. Request must contain 'input', 'prompt', or 'question' field." "input" = true ∧
    containsStr "No question provided. Request must contain 'input', 'prompt', or 'question' field." "prompt" = true ∧
    containsStr "No question provided. Request must contain 'input', 'prompt', or 'question' field." "question" = true := by
  have hq : strTruthy (pyOrOS r.input (pyOrOS r.prompt r.question)) = false := by
    simp [pyOrOS, h1, h2, h3]
  exact ⟨by simp [send_message, hq], by decide, by decide, by decide⟩

/-- Witness for C4: the empty request. -/
theorem C4_missing_field_gate_witness :
    strTruthy (Request.input {}) = false ∧
    send_message emptyStore okDecision none "t" (Inbound.dict {}) =
      { error := some "No question provided. Request must contain 'input', 'prompt', or 'question' field." } :=
  ⟨by decide,
   (C4_missing_field_gate emptyStore okDecision none "t" {}
     (by decide) (by decide) (by decide)).1⟩

/-- C5: session absence is explicit.  The resolver follows the
`session_id` → `context.runtimeSessionId` → `context.runtime_session_id`
precedence (first three conjuncts); with no alias present (and the app
context exposing nothing, which per the source's own comments is the
platform behaviour) the response carries `session_info.runtime_session_id
= null` with the note naming the platform limitation, and no generated
session value appears in `session_id` or the context echoes; with an
alias present the resolved key is echoed (last conjunct). -/
theorem C5_session_absence_explicit (a b c : Option String) :
    (strTruthy a = true → resolveSessionKey a b c = a) ∧
    (strTruthy a = false → strTruthy b = true → resolveSessionKey a b c = b) ∧
    (strTruthy a = false → strTruthy b = false → resolveSessionKey a b c = c) ∧
    (∀ (store : MemoryStore) (invoke : String → Except String InvokeOut) (now : String)
       (r : Request),
      strTruthy (pyOrOS r.input (pyOrOS r.prompt r.question)) = true →
      strTruthy r.session_id = false →
      strTruthy r.context.runtimeSessionId = false →
      strTruthy r.context.runtime_session_id = false →
      (send_message store invoke none now (Inbound.dict r)).session_info =
        some ⟨none, sessionNoteMissing⟩ ∧
      (send_message store invoke none now (Inbound.dict r)).session_id = none ∧
      (send_message store invoke none now (Inbound.dict r)).ctx_runtime_session_id = none ∧
      (send_message store invoke none now (Inbound.dict r)).ctx_session_id = none) ∧
    (∀ (store : MemoryStore) (invoke : String → Except String InvokeOut)
       (app : Option String) (now : String) (r : Request),
      strTruthy (pyOrOS r.input (pyOrOS r.prompt r.question)) = true →
      strTruthy (resolveSessionKey r.session_id r.context.runtimeSessionId
        r.context.runtime_session_id) = true →
      (send_message store invoke app now (Inbound.dict r)).session_info =
        some ⟨resolveSessionKey r.session_id r.context.runtimeSessionId
          r.context.runtime_session_id, sessionNoteKnown⟩) := by
  refine ⟨?_, ?_, ?_, ?_, ?_⟩
  · intro ha
    simp [resolveSessionKey, pyOrOS, ha]
  · intro ha hb
    simp [resolveSessionKey, pyOrOS, ha, hb]
  · intro ha hb
    simp [resolveSessionKey, pyOrOS, ha, hb]
  · intro store invoke now r hq h1 h2 h3
    have hs : strTruthy (resolveSessionKey r.session_id r.context.runtimeSessionId
        r.context.runtime_session_id) = false := by
      simp [resolveSessionKey, pyOrOS, h1, h2, h3]
    exact (send_message_session_fields store invoke none now r hq).1 hs rfl
  · intro store invoke app now r hq hs
    exact ((send_message_session_fields store invoke app now r hq).2 hs).1

/-- Witness for C5 at concrete inputs. -/
theorem C5_session_absence_explicit_witness :
    resolveSessionKey (some "s1") (some "s2") none = some "s1" ∧
    resolveSessionKey none (some "s2") (some "s3") = some "s2" ∧
    resolveSessionKey none none (some "s3") = some "s3" ∧
    (send_message emptyStore okDecision none "t"
      (Inbound.dict { input := some "hi" })).session_info =
      some ⟨none, sessionNoteMissing⟩ ∧
    (send_message emptyStore okDecision none "t"
      (Inbound.dict { input := some "hi", session_id := some "sess-1" })).session_info =
      some ⟨resolveSessionKey (some "sess-1") none none, sessionNoteKnown⟩ :=
  ⟨(C5_session_absence_explicit (some "s1") (some "s2") none).1 (by decide),
   (C5_session_absence_explicit none (some "s2") (some "s3")).2.1 (by decide) (by decide),
   (C5_session_absence_explicit none none (some "s3")).2.2.1 (by decide) (by decide),
   ((C5_session_absence_explicit none none none).2.2.2.1 emptyStore okDecision "t"
     { input := some "hi" } (by decide) (by decide) (by decide) (by decide)).1,
   (C5_session_absence_explicit none none none).2.2.2.2 emptyStore okDecision none "t"
     { input := some "hi", session_id := some "sess-1" } (by decide) (by decide)⟩

end Support

namespace Support

lemma string_append_empty (s : String) : s ++ "" = s := by
  cases s
  show String.mk _ = String.mk _
  simp [String.instAppend, String.append]

lemma joinSep_empty_cons (a : String) (l : List String) :
    joinSep "" (a :: l) = a ++ joinSep "" l := by
  cases l with
  | nil => simp [joinSep, string_append_empty]
  | cons b t => simp [joinSep]

/-- `renderHistMsgs` is the in-order concatenation of one rendered line
per history entry. -/
lemma renderHistMsgs_eq_join (l : List HistMsg) :
    renderHistMsgs l =
      joinSep "" (l.map fun m =>
        upperStr (m.role.getD "unknown") ++ ": " ++ m.content.getD "" ++ "\n") := by
  induction l with
  | nil => rfl
  | cons m t ih => rw [List.map_cons, joinSep_empty_cons, renderHistMsgs, ih]

end Support

namespace Support

lemma strAppendAssoc (a b c : String) : a ++ b ++ c = a ++ (b ++ c) := by
  cases a; cases b; cases c
  show String.mk _ = String.mk _
  simp [String.instAppend, String.append]

/-- C8: turn-history projection window and order.  With a non-empty
`turn_history`, the memory block is the PREVIOUS CONVERSATION wrapper
around exactly the rendered lines of the last-6 window, one line per
entry, in the caller's order; the window has length `min len 6`, so
entries before it are not projected; and the block is a contiguous part
of the prompt. -/
theorem C8_turn_history_window (store : MemoryStore) (question : String) (c : Ctx)
    (h : c.conversation_history ≠ []) :
    historyText store question c =
      "\n=== PREVIOUS CONVERSATION (YOU MUST USE THIS FOR MEMORY QUESTIONS) ===\n"
        ++ joinSep "" ((c.conversation_history.drop (c.conversation_history.length - 6)).map
            fun m => upperStr (m.role.getD "unknown") ++ ": " ++ m.content.getD "" ++ "\n")
        ++ "=== END OF PREVIOUS CONVERSATION ===\n"
        ++ "\nCRITICAL: If the user asks about information from the conversation above (like their name, preferences, or what they told you), you MUST reference it from the Previous Conversation section.\n" ∧
    (c.conversation_history.drop (c.conversation_history.length - 6)).length =
      min c.conversation_history.length 6 ∧
    ∃ pre post, userInfoText store question (some c) =
      pre ++ historyText store question c ++ post := by
  have hie : c.conversation_history.isEmpty = false := by
    rcases hcl : c.conversation_history with _ | ⟨m, t⟩
    · exact absurd hcl h
    · rfl
  refine ⟨?_, ?_, ?_⟩
  · simp [historyText, hie, stmBlock, pySliceLast, renderHistMsgs_eq_join]
  · simp only [List.length_drop]
    omega
  · refine ⟨"\nUser Context:\n- Username: " ++ pyStr c.username
        ++ "\n- Department: " ++ pyTitle (c.department.getD "general")
        ++ "\n- Permissions: "
        ++ (if c.permissions.isEmpty then "Basic" else joinSep ", " c.permissions)
        ++ "\n- Authenticated: " ++ (if c.authenticated then "True" else "False")
        ++ "\n- User ID: " ++ (c.user_id.getD "anonymous") ++ " (for LTM)\n"
        ++ ltmNote (c.user_id.getD "anonymous") ++ "\n",
      "\n" ++ "Session ID: " ++ pyStr c.session_id
        ++ "\nCustomer Request: " ++ question ++ "\n", ?_⟩
    simp [userInfoText, strAppendAssoc]

/-- Witness for C8: a two-entry history. -/
theorem C8_turn_history_window_witness :
    ([⟨some "user", some "hi"⟩, ⟨some "assistant", some "hello"⟩] : List HistMsg) ≠ [] ∧
    historyText emptyStore "q"
      { conversation_history := [⟨some "user", some "hi"⟩, ⟨some "assistant", some "hello"⟩] } =
      "\n=== PREVIOUS CONVERSATION (YOU MUST USE THIS FOR MEMORY QUESTIONS) ===\n"
        ++ joinSep "" ((([⟨some "user", some "hi"⟩, ⟨some "assistant", some "hello"⟩] :
              List HistMsg).drop
            (([⟨some "user", some "hi"⟩, ⟨some "assistant", some "hello"⟩] :
              List HistMsg).length - 6)).map
            fun m => upperStr (m.role.getD "unknown") ++ ": " ++ m.content.getD "" ++ "\n")
        ++ "=== END OF PREVIOUS CONVERSATION ===\n"
        ++ "\nCRITICAL: If the user asks about information from the conversation above (like their name, preferences, or what they told you), you MUST reference it from the Previous Conversation section.\n" :=
  ⟨by decide,
   (C8_turn_history_window emptyStore "q"
     { conversation_history := [⟨some "user", some "hi"⟩, ⟨some "assistant", some "hello"⟩] }
     (by decide)).1⟩

/-- C2 (code bug): request with empty turn history, known identity, no
recent turns, one semantic match.  The source renders the LONG-TERM
MEMORY (USER PREFERENCES/FACTS) block into `history_text` (line 255) and
the unconditional `if recent_turns: … else: …` that follows (lines
265-279) overwrites it with the no-LTM notice of stage 2c, so the block
injected into the prompt is the notice and the rendered preferences are
discarded. -/
theorem C2_semantic_memory_discarded :
    historyText prefStore "What are my preferences?" { user_id := some "u1" } =
      noLtmFoundNotice "u1" ∧
    semanticHistoryText prefStore "What are my preferences?" "u1" "" ≠ noLtmFoundNotice "u1" ∧
    containsStr (semanticHistoryText prefStore "What are my preferences?" "u1" "")
      "LONG-TERM MEMORY (USER PREFERENCES/FACTS)" = true ∧
    containsStr (historyText prefStore "What are my preferences?" { user_id := some "u1" })
      "LONG-TERM MEMORY (USER PREFERENCES/FACTS)" = false :=
  ⟨by decide, by decide, by decide, by decide⟩

/-- C7: graceful degradation of memory assembly.  Whenever the Memory
Store raises during long-term retrieval (either the recent-turn call, or
the semantic call after an empty recent-turn result), the memory block
degrades to one of the two no-history notices and, with the decision step
succeeding, the request still yields a complete envelope with status
`processed` and no error field. -/
theorem C7_memory_graceful_degradation (store : MemoryStore)
    (invoke : String → Except String InvokeOut) (now question : String) (c : Ctx)
    (uid e : String) (out : InvokeOut)
    (huid : c.user_id = some uid) (h1 : uid ≠ "") (h2 : uid ≠ "anonymous")
    (hch : c.conversation_history = [])
    (hmem : (∀ mid aid sid k, store.get_last_k_turns mid aid sid k = Except.error e) ∨
            ((∀ mid aid sid k, store.get_last_k_turns mid aid sid k = Except.ok []) ∧
             (∀ mid ns q k, store.retrieve_memories mid ns q k = Except.error e)))
    (hinv : invoke (userInfoText store question (some c)) = Except.ok out) :
    (historyText store question c = memoryErrorNotice uid ∨
     historyText store question c = noLtmFoundNotice uid) ∧
    (process_request store invoke now question (some c)).status = some "processed" ∧
    (process_request store invoke now question (some c)).error = none ∧
    (process_request store invoke now question (some c)).message =
      some (cleanupMessage (rawMessageContent out.resp)) := by
  have hb1 : (uid != "") = true := by simp [h1]
  have hb2 : (uid != "anonymous") = true := by simp [h2]
  refine ⟨?_, ?_, ?_, ?_⟩
  · rcases hmem with hm | ⟨hm, hsem⟩
    · left
      simp [historyText, huid, hch, hb1, hb2, ltmHistoryText, hm]
    · right
      simp [historyText, huid, hch, hb1, hb2, ltmHistoryText, hm]
  · simp [process_request, hinv]
  · simp [process_request, hinv]
  · simp [process_request, hinv]

/-- Witness for C7: a Memory Store whose recent-turn call times out. -/
theorem C7_memory_graceful_degradation_witness :
    (historyText timeoutStore "q" { user_id := some "u1" } = memoryErrorNotice "u1" ∨
     historyText timeoutStore "q" { user_id := some "u1" } = noLtmFoundNotice "u1") ∧
    (process_request timeoutStore okDecision "t" "q"
      (some { user_id := some "u1" })).status = some "processed" ∧
    (process_request timeoutStore okDecision "t" "q"
      (some { user_id := some "u1" })).error = none ∧
    (process_request timeoutStore okDecision "t" "q"
      (some { user_id := some "u1" })).message =
      some (cleanupMessage (rawMessageContent (InvokeOut.mk {} []).resp)) :=
  C7_memory_graceful_degradation timeoutStore okDecision "t" "q"
    { user_id := some "u1" } "u1" "timeout" {}
    rfl (by decide) (by decide) rfl
    (Or.inl fun _ _ _ _ => rfl) rfl

end Support

namespace Support

lemma finalState_goodState (out : InvokeOut) : GoodState (finalState out) := by
  unfold finalState
  dsimp only
  split_ifs with h
  · exact goodState_fallbackScan _ _ (goodState_classifyCalls _)
  · exact goodState_classifyCalls _

lemma finalState_of_agent (out : InvokeOut) (n : String)
    (h : (classifyCalls (discoveredCalls out)).specialized_agents.count n = 1) :
    finalState out = classifyCalls (discoveredCalls out) := by
  unfold finalState
  dsimp only
  rw [if_neg]
  intro hemp
  have hmem : n ∈ (classifyCalls (discoveredCalls out)).specialized_agents :=
    List.count_pos_iff.mp (by omega)
  rw [List.isEmpty_iff.mp hemp] at hmem
  exact List.not_mem_nil n hmem

lemma finalState_mt_count (out : InvokeOut) (n : String) :
    (finalState out).mcp_tools_used.count n =
      (classifyCalls (discoveredCalls out)).mcp_tools_used.count n := by
  unfold finalState
  dsimp only
  split_ifs
  · rw [fallbackScan_mt]
  · rfl

lemma finalState_toolcountP (out : InvokeOut) (n : String) :
    (finalState out).response_trace.countP (isToolEntryFor n) =
      (classifyCalls (discoveredCalls out)).response_trace.countP (isToolEntryFor n) := by
  unfold finalState
  dsimp only
  split_ifs
  · rw [fallbackScan_toolcount]
  · rfl

/-- C6 (counterexample to the claim as stated): the empty request ends in
the MissingRequiredField error envelope, but that envelope carries
neither `status = "error"` nor the echoed `context`. -/
theorem C6_error_envelope_counterexample :
    (send_message emptyStore okDecision none "t" (Inbound.dict {})).error ≠ none ∧
    (send_message emptyStore okDecision none "t" (Inbound.dict {})).status ≠ some "error" ∧
    (send_message emptyStore okDecision none "t" (Inbound.dict {})).context = none ∧
    (send_message emptyStore okDecision none "t" (Inbound.dict {})).message = none :=
  ⟨by decide, by decide, by decide, by decide⟩

/-- C6 as amended: every caller-visible error envelope carries a
human-readable `error` string and no `message` field; the
DecisionStepFailure envelope additionally carries `status = "error"` and
the echoed context, while the InvalidRequestShape and
MissingRequiredField envelopes consist of the `error` string alone. -/
theorem C6_error_envelope_amended :
    (∀ (store : MemoryStore) (invoke : String → Except String InvokeOut)
       (app : Option String) (now s : String),
      send_message store invoke app now (Inbound.invalid s) =
        { error := some "Invalid request format. Request must be a dictionary." }) ∧
    (∀ (store : MemoryStore) (invoke : String → Except String InvokeOut)
       (app : Option String) (now : String) (r : Request),
      strTruthy r.input = false → strTruthy r.prompt = false →
      strTruthy r.question = false →
      send_message store invoke app now (Inbound.dict r) =
        { error := some "No question provided. Request must contain 'input', 'prompt', or 'question' field." }) ∧
    (∀ (store : MemoryStore) (invoke : String → Except String InvokeOut)
       (app : Option String) (now : String) (r : Request) (e : String),
      strTruthy (pyOrOS r.input (pyOrOS r.prompt r.question)) = true →
      (∀ s, invoke s = Except.error e) →
      (send_message store invoke app now (Inbound.dict r)).status = some "error" ∧
      (send_message store invoke app now (Inbound.dict r)).error =
        some ("Failed to process request: " ++ e) ∧
      (send_message store invoke app now (Inbound.dict r)).context =
        some (enhancedCtx r) ∧
      (send_message store invoke app now (Inbound.dict r)).message = none) := by
  refine ⟨fun _ _ _ _ _ => rfl, ?_, ?_⟩
  · intro store invoke app now r h1 h2 h3
    have hq : strTruthy (pyOrOS r.input (pyOrOS r.prompt r.question)) = false := by
      simp [pyOrOS, h1, h2, h3]
    simp [send_message, hq]
  · intro store invoke app now r e hq hfail
    have hcore := send_message_core_fields store invoke app now r hq
    refine ⟨?_, ?_, ?_, ?_⟩
    · rw [hcore.2.1]; simp [process_request, hfail]
    · rw [hcore.2.2.1]; simp [process_request, hfail]
    · rw [hcore.2.2.2.1]; simp [process_request, hfail]
    · rw [hcore.1]; simp [process_request, hfail]

/-- Witness for the amended C6 at concrete inputs. -/
theorem C6_error_envelope_amended_witness :
    send_message emptyStore okDecision none "t" (Inbound.invalid "payload") =
      { error := some "Invalid request format. Request must be a dictionary." } ∧
    send_message emptyStore okDecision none "t" (Inbound.dict {}) =
      { error := some "No question provided. Request must contain 'input', 'prompt', or 'question' field." } ∧
    (send_message emptyStore failDecision none "t"
      (Inbound.dict { input := some "hi" })).status = some "error" :=
  ⟨C6_error_envelope_amended.1 emptyStore okDecision none "t" "payload",
   C6_error_envelope_amended.2.1 emptyStore okDecision none "t" {}
     (by decide) (by decide) (by decide),
   (C6_error_envelope_amended.2.2 emptyStore failDecision none "t"
     { input := some "hi" } "boom" (by decide) (fun _ => rfl)).1⟩

/-- C9 (counterexample to the claim as stated): a discovered call record
named `dynamodb___create_ticket` contains the `___` separator and does
not match the agent-routing signature, yet the classification loop
records nothing, because the tool branch additionally requires the
substring `target` in the lower-cased name
(`src/agent.py` line 403). -/
theorem C9_tool_classification_counterexample :
    containsStr "dynamodb___create_ticket" "___" = true ∧
    isA2AName "dynamodb___create_ticket" = false ∧
    classifyCalls [{ name := "dynamodb___create_ticket" }] = ({} : ClassState) ∧
    (process_request emptyStore
      (fun _ => Except.ok
        { resp := { tool_calls := some (some [{ name := "dynamodb___create_ticket" }]) } })
      "t" "q" none).mcp_tools_used = some [] ∧
    (process_request emptyStore
      (fun _ => Except.ok
        { resp := { tool_calls := some (some [{ name := "dynamodb___create_ticket" }]) } })
      "t" "q" none).response_trace = some [] :=
  ⟨by decide, by decide, by decide, by decide, by decide⟩

/-- C9 as amended: a discovered record whose name does not match the
agent-routing signature, contains `___` and whose lower-cased form
contains the substring `target`, yields exactly one Trace Entry of kind
tool and one `mcp_tools_used` element, deduplicated by exact
identifier. -/
theorem C9_tool_classification_amended (store : MemoryStore)
    (invoke : String → Except String InvokeOut) (now question : String)
    (context : Option Ctx) (out : InvokeOut)
    (hinv : invoke (userInfoText store question context) = Except.ok out)
    (c : ToolCall) (hc : c ∈ discoveredCalls out)
    (h1 : containsStr c.name "___" = true)
    (h2 : containsStr (lowerStr c.name) "target" = true)
    (h3 : isA2AName c.name = false) :
    (process_request store invoke now question context).mcp_tools_used =
      some (finalState out).mcp_tools_used ∧
    (process_request store invoke now question context).response_trace =
      some (finalState out).response_trace ∧
    (finalState out).mcp_tools_used.count c.name = 1 ∧
    (finalState out).response_trace.countP (isToolEntryFor c.name) = 1 := by
  have hrec : recordsTool c.name c = true := by
    simp [recordsTool, h1, h2, h3]
  have hmt : (classifyCalls (discoveredCalls out)).mcp_tools_used.count c.name = 1 :=
    foldl_mt_count_of_hit (discoveredCalls out) {} c.name (by simp) ⟨c, hc, hrec⟩
  have hrt : (classifyCalls (discoveredCalls out)).response_trace.countP
      (isToolEntryFor c.name) = 1 := by
    rw [countP_tool_of_goodState _ (goodState_classifyCalls _), hmt]
  refine ⟨by simp [process_request, hinv], by simp [process_request, hinv], ?_, ?_⟩
  · rw [finalState_mt_count, hmt]
  · rw [finalState_toolcountP, hrt]

end Support

namespace Support

/-- A call record routing to the ticket agent, used by witnesses. -/
def ticketCall : ToolCall :=
  { name := "a2a_send_message",
    arguments := { target_agent_url := some "http://127.0.0.1:9003" } }

/-- A decision step exposing the same agent call twice. -/
def dupAgentDecision : String → Except String InvokeOut :=
  fun _ => .ok { resp := { tool_calls := some (some [ticketCall, ticketCall]) } }

/-- A decision step exposing one namespaced gateway tool call. -/
def mcpDecision : String → Except String InvokeOut :=
  fun _ => .ok { resp := { tool_calls := some (some
    [{ name := "dev-customer-support-ticket-management-target___ticket" }]) } }

/-- Witness for the amended C9: the repository's own gateway tool name. -/
theorem C9_tool_classification_amended_witness :
    (process_request emptyStore mcpDecision "t" "q" none).mcp_tools_used =
      some (finalState { resp := { tool_calls := some (some
        [{ name := "dev-customer-support-ticket-management-target___ticket" }]) } }).mcp_tools_used ∧
    (process_request emptyStore mcpDecision "t" "q" none).response_trace =
      some (finalState { resp := { tool_calls := some (some
        [{ name := "dev-customer-support-ticket-management-target___ticket" }]) } }).response_trace ∧
    (finalState { resp := { tool_calls := some (some
        [{ name := "dev-customer-support-ticket-management-target___ticket" }]) } }).mcp_tools_used.count
      "dev-customer-support-ticket-management-target___ticket" = 1 ∧
    (finalState { resp := { tool_calls := some (some
        [{ name := "dev-customer-support-ticket-management-target___ticket" }]) } }).response_trace.countP
      (isToolEntryFor "dev-customer-support-ticket-management-target___ticket") = 1 :=
  C9_tool_classification_amended emptyStore mcpDecision "t" "q" none
    { resp := { tool_calls := some (some
        [{ name := "dev-customer-support-ticket-management-target___ticket" }]) } }
    rfl { name := "dev-customer-support-ticket-management-target___ticket" }
    (by decide) (by decide) (by decide) (by decide)

/-- C3: idempotence of trace deduplication.  When the discovered call
records route to the same Agent Endpoint (URL `u`, display name `n`) more
than once, the reconstructed trace and the `specialized_agents` list each
carry exactly one entry for that agent; the entry exists already after
the first such record (`pre ++ [c]`) and not before (`pre`), i.e. it sits
at the position of first occurrence. -/
theorem C3_trace_dedup_idempotent (store : MemoryStore)
    (invoke : String → Except String InvokeOut) (now question : String)
    (context : Option Ctx) (out : InvokeOut)
    (hinv : invoke (userInfoText store question context) = Except.ok out)
    (pre post : List ToolCall) (c : ToolCall) (u n : String)
    (hsplit : discoveredCalls out = pre ++ c :: post)
    (hlk : lookupAgentUrl u = some n)
    (hurl : callAgentUrl c = u)
    (ha2a : isA2AName c.name = true)
    (hpre : ∀ tc ∈ pre, routesToAgent n tc = false)
    (_hdup : 2 ≤ (discoveredCalls out).countP (routesToAgent n)) :
    (process_request store invoke now question context).response_trace =
      some (classifyCalls (discoveredCalls out)).response_trace ∧
    (process_request store invoke now question context).specialized_agents =
      some (classifyCalls (discoveredCalls out)).specialized_agents ∧
    (classifyCalls (discoveredCalls out)).response_trace.countP (isAgentEntryFor n) = 1 ∧
    (classifyCalls (discoveredCalls out)).specialized_agents.count n = 1 ∧
    (classifyCalls pre).response_trace.countP (isAgentEntryFor n) = 0 ∧
    (classifyCalls (pre ++ [c])).response_trace.countP (isAgentEntryFor n) = 1 := by
  have hune : u ≠ "" := by
    intro hu
    rw [hu] at hlk
    have hz : lookupAgentUrl "" = none := by decide
    rw [hz] at hlk
    cases hlk
  have hrc : routesToAgent n c = true := by
    simp [routesToAgent, ha2a, hurl, hlk, hune]
  have hcount : (classifyCalls (discoveredCalls out)).specialized_agents.count n = 1 := by
    rw [hsplit]
    exact foldl_sa_count_of_hit _ {} n (by simp) ⟨c, by simp, hrc⟩
  have hrtc : (classifyCalls (discoveredCalls out)).response_trace.countP
      (isAgentEntryFor n) = 1 := by
    rw [countP_agent_of_goodState _ (goodState_classifyCalls _), hcount]
  have hfin : finalState out = classifyCalls (discoveredCalls out) :=
    finalState_of_agent out n hcount
  have hpre0 : (classifyCalls pre).specialized_agents.count n = 0 :=
    foldl_sa_count_of_miss pre {} n (by simp) hpre
  have hpc1 : (classifyCalls (pre ++ [c])).specialized_agents.count n = 1 :=
    foldl_sa_count_of_hit _ {} n (by simp) ⟨c, by simp, hrc⟩
  refine ⟨?_, ?_, hrtc, hcount, ?_, ?_⟩
  · simp [process_request, hinv, hfin]
  · simp [process_request, hinv, hfin]
  · rw [countP_agent_of_goodState _ (goodState_classifyCalls _), hpre0]
  · rw [countP_agent_of_goodState _ (goodState_classifyCalls _), hpc1]

/-- Witness for C3: the same ticket-agent call twice. -/
theorem C3_trace_dedup_idempotent_witness :
    (process_request emptyStore dupAgentDecision "t" "q" none).response_trace =
      some (classifyCalls (discoveredCalls
        { resp := { tool_calls := some (some [ticketCall, ticketCall]) } })).response_trace ∧
    (process_request emptyStore dupAgentDecision "t" "q" none).specialized_agents =
      some (classifyCalls (discoveredCalls
        { resp := { tool_calls := some (some [ticketCall, ticketCall]) } })).specialized_agents ∧
    (classifyCalls (discoveredCalls
      { resp := { tool_calls := some (some [ticketCall, ticketCall]) } })).response_trace.countP
        (isAgentEntryFor "TicketAgent") = 1 ∧
    (classifyCalls (discoveredCalls
      { resp := { tool_calls := some (some [ticketCall, ticketCall]) } })).specialized_agents.count
        "TicketAgent" = 1 ∧
    (classifyCalls ([] : List ToolCall)).response_trace.countP
      (isAgentEntryFor "TicketAgent") = 0 ∧
    (classifyCalls ([] ++ [ticketCall])).response_trace.countP
      (isAgentEntryFor "TicketAgent") = 1 :=
  C3_trace_dedup_idempotent emptyStore dupAgentDecision "t" "q" none
    { resp := { tool_calls := some (some [ticketCall, ticketCall]) } }
    rfl [] [ticketCall] ticketCall "http://127.0.0.1:9003" "TicketAgent"
    (by decide) (by decide) (by decide) (by decide) (by simp) (by decide)

/-- C10: trace/name-set consistency.  Every successfully processed
request's `specialized_agents` equals, in order, the names of the agent
entries of `response_trace`, `mcp_tools_used` equals the identifiers of
its tool entries, and both lists are duplicate-free. -/
theorem C10_trace_name_consistency (store : MemoryStore)
    (invoke : String → Except String InvokeOut) (now question : String)
    (context : Option Ctx)
    (h : (process_request store invoke now question context).status = some "processed") :
    ∃ sa mt rt,
      (process_request store invoke now question context).specialized_agents = some sa ∧
      (process_request store invoke now question context).mcp_tools_used = some mt ∧
      (process_request store invoke now question context).response_trace = some rt ∧
      sa = rt.filterMap agentEntryName ∧ mt = rt.filterMap toolEntryName ∧
      sa.Nodup ∧ mt.Nodup := by
  rcases hi : invoke (userInfoText store question context) with e | out
  · rw [show (process_request store invoke now question context).status = some "error" from
      by simp [process_request, hi]] at h
    exact absurd (Option.some.inj h) (by decide)
  · have hg := finalState_goodState out
    exact ⟨(finalState out).specialized_agents, (finalState out).mcp_tools_used,
      (finalState out).response_trace,
      by simp [process_request, hi], by simp [process_request, hi],
      by simp [process_request, hi], hg.sa_eq, hg.mt_eq, hg.sa_nodup, hg.mt_nodup⟩

/-- Witness for C10: a processed request with one duplicated agent call. -/
theorem C10_trace_name_consistency_witness :
    ∃ sa mt rt,
      (process_request emptyStore dupAgentDecision "t" "q" none).specialized_agents = some sa ∧
      (process_request emptyStore dupAgentDecision "t" "q" none).mcp_tools_used = some mt ∧
      (process_request emptyStore dupAgentDecision "t" "q" none).response_trace = some rt ∧
      sa = rt.filterMap agentEntryName ∧ mt = rt.filterMap toolEntryName ∧
      sa.Nodup ∧ mt.Nodup :=
  C10_trace_name_consistency emptyStore dupAgentDecision "t" "q" none (by decide)

end Support
